import Mathlib

/-!
Shallow embedding of the secret-santa constrained-assignment core.

The repository has three near-duplicate implementations of the core:
  - src/logic.py      : name-keyed validator and generator (raises on exhaustion)
  - src/main.py       : name-keyed validator and generator (returns the empty
                        dict on exhaustion)
  - src/app/logic.py  : id-keyed validator resolving recipient names through a
                        participants list, generator raising on exhaustion

Python dicts are modelled as association lists (insertion order preserved,
keys distinct in any dict built by the code), `random.sample(names, len(names))`
and `random.shuffle` as an explicit list `samples` of candidate recipient
orderings, one per loop attempt, each a permutation of the pool. Raising
`ValueError` is modelled as `Except.error` carrying the message string.
-/

namespace SecretSanta

/-- Python `d.get(k, dflt)` on an association list. -/
def dictGet [BEq κ] (m : List (κ × α)) (k : κ) (dflt : α) : α :=
  match m.find? (fun p => p.1 == k) with
  | some p => p.2
  | none => dflt

/-- Python slice `l[-n:]`: the last `n` elements (the whole list when it is
shorter than `n`). -/
def lastN (n : Nat) (l : List α) : List α :=
  l.drop (l.length - n)

namespace Logic

/-- Embeds `is_valid_pairing` of src/logic.py: every (giver, recipient) pair
passes unless the recipient occurs in `past_receiver.get(giver, [])[-2:]`. -/
def is_valid_pairing (assignments : List (String × String))
    (past_receiver : List (String × List String)) : Bool :=
  assignments.all fun gr => !((lastN 2 (dictGet past_receiver gr.1 [])).contains gr.2)

/-- The acceptance test of one attempt of `generate_secret_santa` in
src/logic.py: the zipped candidate has no self-pair and passes
`is_valid_pairing`. -/
def accepts (names : List String) (past : List (String × List String))
    (recipients : List String) : Bool :=
  let candidate := names.zip recipients
  candidate.all (fun gr => gr.1 != gr.2) && is_valid_pairing candidate past

/-- The attempt loop of `generate_secret_santa` in src/logic.py, recursing over
the successive outputs of `random.sample(names, len(names))`. -/
def generateLoop (names : List String) (past : List (String × List String)) :
    List (List String) → Except String (List (String × String))
  | [] => .error "Unable to generate valid Secret Santa pairings after multiple attempts."
  | recipients :: rest =>
    if accepts names past recipients then
      .ok (names.zip recipients)
    else
      generateLoop names past rest

/-- Embeds `generate_secret_santa` of src/logic.py; `samples` stands for the
(at most 100) candidate recipient orderings drawn by `random.sample`. -/
def generate_secret_santa (past_year_receiver : List (String × List String))
    (samples : List (List String)) : Except String (List (String × String)) :=
  generateLoop (past_year_receiver.map Prod.fst) past_year_receiver samples

end Logic

namespace Main

/-- Embeds `is_valid_pairing` of src/main.py (textually the same check as
src/logic.py). -/
def is_valid_pairing (assignments : List (String × String))
    (past_receiver : List (String × List String)) : Bool :=
  assignments.all fun gr => !((lastN 2 (dictGet past_receiver gr.1 [])).contains gr.2)

/-- The attempt loop of `generate_secret_santa` in src/main.py: on a
self-pair the attempt is skipped (`continue`), on a valid candidate the loop
breaks with the candidate, and when the attempts run out the initial empty
dict `assignment = {}` is returned. -/
def generateLoop (names : List String) (past : List (String × List String)) :
    List (List String) → List (String × String)
  | [] => []
  | recipients :: rest =>
    let candidate := names.zip recipients
    if candidate.any (fun gr => gr.1 == gr.2) then
      generateLoop names past rest
    else if is_valid_pairing candidate past then
      candidate
    else
      generateLoop names past rest

/-- Embeds `generate_secret_santa` of src/main.py; `samples` stands for the
(at most 100) shuffles of the recipients list. -/
def generate_secret_santa (past_year_receiver : List (String × List String))
    (samples : List (List String)) : List (String × String) :=
  generateLoop (past_year_receiver.map Prod.fst) past_year_receiver samples

end Main

/-- A participant row as used by src/app/logic.py: a dict with `id` and
`name` keys. -/
structure Participant where
  id : Int
  name : String
deriving DecidableEq, Repr

namespace AppLogic

/-- The per-pair check of `is_valid_pairing` in src/app/logic.py: a self-pair
fails; otherwise the recipient id is resolved to a name through the
participants list (`None` when absent) and the pair fails when that name is in
`past_receivers.get(giver_id, [])`. List elements are `Option String` because
a fetched receiver name may be Python `None`. -/
def pairCheck (past_receivers : List (Int × List (Option String)))
    (participants : List Participant) (gr : Int × Int) : Bool :=
  if gr.1 == gr.2 then
    false
  else
    let recipient_name : Option String :=
      (participants.find? (fun p => p.id == gr.2)).map Participant.name
    !((dictGet past_receivers gr.1 []).contains recipient_name)

/-- Embeds `is_valid_pairing` of src/app/logic.py: the loop over
`assignments.items()` returning `False` at the first failing pair. -/
def is_valid_pairing (assignments : List (Int × Int))
    (past_receivers : List (Int × List (Option String)))
    (participants : List Participant) : Bool :=
  assignments.all (pairCheck past_receivers participants)

/-- The attempt loop of `generate_secret_santa` in src/app/logic.py.
The Python function fetches `past_receivers` itself through
`fetch_past_receivers(sql_statements)`; the fetched dict is a parameter here,
the database being an external collaborator. -/
def generateLoop (ids : List Int)
    (past_receivers : List (Int × List (Option String)))
    (participants : List Participant) :
    List (List Int) → Except String (List (Int × Int))
  | [] => .error "Unable to generate valid Secret Santa pairings after multiple attempts."
  | receiver_ids :: rest =>
    let candidate := ids.zip receiver_ids
    if is_valid_pairing candidate past_receivers participants then
      .ok candidate
    else
      generateLoop ids past_receivers participants rest

/-- Embeds `generate_secret_santa` of src/app/logic.py; `samples` stands for
the (at most 1000) shuffles of the participant id list. -/
def generate_secret_santa (participants : List Participant)
    (past_receivers : List (Int × List (Option String)))
    (samples : List (List Int)) : Except String (List (Int × Int)) :=
  generateLoop (participants.map Participant.id) past_receivers participants samples

end AppLogic

/-! ### Helper lemmas -/

/-- A permutation of an explicit pair is one of its two orderings
(element form). -/
theorem perm_pair_cases {x y a b : String} (h : [x, y].Perm [a, b]) :
    (x = a ∧ y = b) ∨ (x = b ∧ y = a) := by
  have hx : x ∈ [a, b] := h.mem_iff.mp (by simp)
  simp at hx
  rcases hx with rfl | rfl
  · left
    have h1 : [y].Perm [b] := (List.perm_cons x).mp h
    have h2 := List.perm_singleton.mp h1
    exact ⟨rfl, by injection h2⟩
  · right
    have h0 : [x, y].Perm [x, a] := h.trans (List.Perm.swap x a [])
    have h1 : [y].Perm [a] := (List.perm_cons x).mp h0
    have h2 := List.perm_singleton.mp h1
    exact ⟨rfl, by injection h2⟩

/-- A permutation of an explicit pair is one of its two orderings. -/
theorem perm_pair_eq {s : List String} {a b : String} (h : s.Perm [a, b]) :
    s = [a, b] ∨ s = [b, a] := by
  have hl : s.length = 2 := h.length_eq
  match s, hl with
  | [x, y], _ =>
    rcases perm_pair_cases h with ⟨rfl, rfl⟩ | ⟨rfl, rfl⟩
    · exact Or.inl rfl
    · exact Or.inr rfl

namespace Logic

/-- Any successful run of the src/logic.py attempt loop returns the zip of the
giver list with one of the sampled recipient orderings, and that candidate
passed both the self-pair filter and `is_valid_pairing`. -/
theorem generateLoop_ok {names : List String} {past : List (String × List String)}
    {samples : List (List String)} {a : List (String × String)}
    (h : generateLoop names past samples = .ok a) :
    ∃ s ∈ samples, a = names.zip s ∧ accepts names past s = true := by
  induction samples with
  | nil => exact absurd h (by simp [generateLoop])
  | cons s rest ih =>
    rw [generateLoop] at h
    by_cases hs : accepts names past s = true
    · rw [if_pos hs] at h
      exact ⟨s, by simp, by injection h with h2; exact h2.symm, hs⟩
    · rw [if_neg hs] at h
      obtain ⟨t, ht, hrest⟩ := ih h
      exact ⟨t, by simp [ht], hrest⟩

/-- When every sampled ordering is rejected, the src/logic.py attempt loop
ends in the `ValueError`. -/
theorem generateLoop_error {names : List String} {past : List (String × List String)}
    {samples : List (List String)}
    (h : ∀ s ∈ samples, accepts names past s = false) :
    generateLoop names past samples =
      .error "Unable to generate valid Secret Santa pairings after multiple attempts." := by
  induction samples with
  | nil => rfl
  | cons s rest ih =>
    rw [generateLoop, if_neg (by simp [h s (by simp)])]
    exact ih fun t ht => h t (by simp [ht])

/-- Unpacking of a passing acceptance test. -/
theorem accepts_true {names : List String} {past : List (String × List String)}
    {s : List String} (h : accepts names past s = true) :
    ((names.zip s).all fun gr => gr.1 != gr.2) = true ∧
      is_valid_pairing (names.zip s) past = true := by
  rw [accepts, Bool.and_eq_true] at h
  exact h

end Logic

namespace Main

/-- When every sampled ordering either contains a self-pair or fails
`is_valid_pairing`, the src/main.py attempt loop falls through and returns the
initial empty dict. -/
theorem generateLoop_all_rejected {names : List String}
    {past : List (String × List String)} {samples : List (List String)}
    (h : ∀ s ∈ samples,
      ((names.zip s).any fun gr => gr.1 == gr.2) = true ∨
        is_valid_pairing (names.zip s) past = false) :
    generateLoop names past samples = [] := by
  induction samples with
  | nil => rfl
  | cons s rest ih =>
    have hrest : generateLoop names past rest = [] :=
      ih fun t ht => h t (by simp [ht])
    rcases h s (by simp) with hself | hvalid
    · rw [generateLoop]
      simp only [hself, if_pos]
      exact hrest
    · rw [generateLoop]
      by_cases hs : ((names.zip s).any fun gr => gr.1 == gr.2) = true
      · simp only [hs, if_pos]
        exact hrest
      · simp only [hs, if_neg, Bool.false_eq_true, if_false, hvalid]
        exact hrest

end Main

/-! ### Claims -/

/-- C1: for every input history mapping (pool = its key set, keys distinct as
in any Python dict) and every assignment returned by a successful call to
`generate_secret_santa` (src/logic.py), when every drawn sample is a
permutation of the pool (as `random.sample(names, len(names))` guarantees),
the returned mapping is a bijection over the pool: its keys are exactly the
pool members, and every pool member appears exactly once among its values. -/
theorem generate_secret_santa_bijection
    (past : List (String × List String)) (samples : List (List String))
    (a : List (String × String))
    (hperm : ∀ s ∈ samples, s.Perm (past.map Prod.fst))
    (hnd : (past.map Prod.fst).Nodup)
    (hok : Logic.generate_secret_santa past samples = .ok a) :
    a.map Prod.fst = past.map Prod.fst ∧
    (a.map Prod.snd).Perm (past.map Prod.fst) ∧
    ∀ x ∈ past.map Prod.fst, (a.map Prod.snd).count x = 1 := by
  obtain ⟨s, hs, rfl, hacc⟩ := Logic.generateLoop_ok hok
  have hsp := hperm s hs
  have hlen : s.length = (past.map Prod.fst).length := hsp.length_eq
  have hfst : ((past.map Prod.fst).zip s).map Prod.fst = past.map Prod.fst :=
    List.map_fst_zip _ _ (le_of_eq hlen.symm)
  have hsnd : ((past.map Prod.fst).zip s).map Prod.snd = s :=
    List.map_snd_zip _ _ (le_of_eq hlen)
  refine ⟨hfst, ?_, ?_⟩
  · rw [hsnd]
    exact hsp
  · intro x hx
    rw [hsnd]
    exact List.count_eq_one_of_mem (hsp.nodup_iff.mpr hnd) (hsp.mem_iff.mpr hx)

/-- Witness for C1 on a concrete two-member pool. -/
theorem generate_secret_santa_bijection_witness :
    (∀ s ∈ [["B", "A"]], s.Perm ([("A", ([] : List String)), ("B", [])].map Prod.fst)) ∧
    (([("A", ([] : List String)), ("B", [])].map Prod.fst).Nodup) ∧
    (([("A", "B"), ("B", "A")] : List (String × String)).map Prod.fst =
      [("A", ([] : List String)), ("B", [])].map Prod.fst ∧
    (([("A", "B"), ("B", "A")] : List (String × String)).map Prod.snd).Perm
      ([("A", ([] : List String)), ("B", [])].map Prod.fst) ∧
    ∀ x ∈ [("A", ([] : List String)), ("B", [])].map Prod.fst,
      (([("A", "B"), ("B", "A")] : List (String × String)).map Prod.snd).count x = 1) :=
  ⟨by decide, by decide,
    generate_secret_santa_bijection [("A", []), ("B", [])] [["B", "A"]]
      [("A", "B"), ("B", "A")] (by decide) (by decide) (by rfl)⟩

/-- C2: for every assignment returned by a successful call to
`generate_secret_santa` (src/logic.py), no giver is mapped to themselves. -/
theorem generate_secret_santa_no_self
    (past : List (String × List String)) (samples : List (List String))
    (a : List (String × String))
    (hok : Logic.generate_secret_santa past samples = .ok a) :
    ∀ gr ∈ a, gr.1 ≠ gr.2 := by
  obtain ⟨s, hs, rfl, hacc⟩ := Logic.generateLoop_ok hok
  have hall := (Logic.accepts_true hacc).1
  rw [List.all_eq_true] at hall
  intro gr hgr
  simpa using hall gr hgr

/-- Witness for C2 on a concrete two-member pool, instantiated at the first
returned pair. -/
theorem generate_secret_santa_no_self_witness :
    (("A", "B") : String × String).1 ≠ ("A", "B").2 :=
  generate_secret_santa_no_self [("A", []), ("B", [])] [["B", "A"]]
    [("A", "B"), ("B", "A")] (by rfl) ("A", "B") (by decide)

/-- C3: for every assignment returned by a successful call to
`generate_secret_santa` (src/logic.py) and every (giver, recipient) pair in
it, the recipient is not among the last 2 entries of the giver's
past-receiver list (absent givers having the empty list). -/
theorem generate_secret_santa_history_exclusion
    (past : List (String × List String)) (samples : List (List String))
    (a : List (String × String))
    (hok : Logic.generate_secret_santa past samples = .ok a) :
    ∀ gr ∈ a, gr.2 ∉ lastN 2 (dictGet past gr.1 []) := by
  obtain ⟨s, hs, rfl, hacc⟩ := Logic.generateLoop_ok hok
  have hval := (Logic.accepts_true hacc).2
  rw [Logic.is_valid_pairing, List.all_eq_true] at hval
  intro gr hgr hmem
  have h := hval gr hgr
  rw [Bool.not_eq_eq_eq_not, Bool.not_true] at h
  have hc : (lastN 2 (dictGet past gr.1 [])).contains gr.2 = true := List.elem_iff.mpr hmem
  rw [h] at hc
  exact Bool.false_ne_true hc

/-- Witness for C3 on a concrete three-member pool with history, instantiated
at the first returned pair. -/
theorem generate_secret_santa_history_exclusion_witness :
    (("A", "C") : String × String).2 ∉
      lastN 2 (dictGet [("A", ["B"]), ("B", ["C"]), ("C", ["A"])] ("A", "C").1 []) :=
  generate_secret_santa_history_exclusion [("A", ["B"]), ("B", ["C"]), ("C", ["A"])]
    [["C", "A", "B"]] [("A", "C"), ("B", "A"), ("C", "B")] (by rfl) ("A", "C") (by decide)

/-- C4 counterexample: in the src/main.py variant, when no valid candidate is
found within the 100 attempts (pool of one member: every candidate is a
self-pair), `generate_secret_santa` returns the empty dict to the caller
instead of raising an error. -/
theorem main_generate_returns_empty_on_exhaustion :
    Main.generate_secret_santa [("A", [])] (List.replicate 100 ["A"]) = [] := by
  decide

/-- C4 amended: in the src/logic.py variant, when every sampled ordering is
rejected the call raises `ValueError`, and any assignment it does return
covers the whole pool as givers, contains no self-pair and passes
`is_valid_pairing`; the src/main.py variant instead returns the empty dict on
exhaustion. -/
theorem generate_error_on_exhaustion
    (past : List (String × List String)) (samples : List (List String)) :
    ((∀ s ∈ samples, Logic.accepts (past.map Prod.fst) past s = false) →
      Logic.generate_secret_santa past samples =
        .error "Unable to generate valid Secret Santa pairings after multiple attempts.") ∧
    (∀ a, Logic.generate_secret_santa past samples = .ok a →
      (∀ s ∈ samples, s.length = (past.map Prod.fst).length) →
      a.map Prod.fst = past.map Prod.fst ∧
      (∀ gr ∈ a, gr.1 ≠ gr.2) ∧ Logic.is_valid_pairing a past = true) := by
  constructor
  · intro h
    exact Logic.generateLoop_error h
  · intro a hok hlen
    obtain ⟨s, hs, rfl, hacc⟩ := Logic.generateLoop_ok hok
    obtain ⟨hself, hval⟩ := Logic.accepts_true hacc
    refine ⟨List.map_fst_zip _ _ (le_of_eq (hlen s hs).symm), ?_, hval⟩
    rw [List.all_eq_true] at hself
    intro gr hgr
    simpa using hself gr hgr

/-- Witness for the amended C4 on a one-member pool whose every attempt is a
self-pair. -/
theorem generate_error_on_exhaustion_witness :
    (∀ s ∈ [["A"]], Logic.accepts ([("A", ([] : List String))].map Prod.fst) [("A", [])] s = false) ∧
    Logic.generate_secret_santa [("A", [])] [["A"]] =
      .error "Unable to generate valid Secret Santa pairings after multiple attempts." :=
  ⟨by decide, (generate_error_on_exhaustion [("A", [])] [["A"]]).1 (by decide)⟩

/-- C5 counterexample: with an empty pool the src/logic.py generator does not
fail fast with any error: the very first sampling attempt produces the empty
candidate, which passes every check, and the call returns the empty dict as a
successful result. -/
theorem empty_pool_returns_ok :
    Logic.generate_secret_santa [] [[]] = .ok [] := by
  rfl

/-- C5 amended: the src/logic.py generator has no pool-size fail-fast check:
an empty pool yields the empty assignment successfully on the first attempt,
and a one-member pool makes every attempt a self-pair, so the call exhausts
its samples and ends in the `ValueError` — it never returns a pairing. -/
theorem pool_size_one_exhausts :
    (∀ (s : List String) (rest : List (List String)),
      Logic.generate_secret_santa [] (s :: rest) = .ok []) ∧
    (∀ (a : String) (past : List (String × List String)) (samples : List (List String)),
      past.map Prod.fst = [a] → (∀ s ∈ samples, s.Perm [a]) →
      Logic.generate_secret_santa past samples =
        .error "Unable to generate valid Secret Santa pairings after multiple attempts.") := by
  constructor
  · intro s rest
    rfl
  · intro a past samples hpool hperm
    unfold Logic.generate_secret_santa
    apply Logic.generateLoop_error
    intro s hsmem
    have hseq : s = [a] := List.perm_singleton.mp (hperm s hsmem)
    subst hseq
    rw [hpool, Logic.accepts]
    simp

/-- Witness for the amended C5: a concrete one-member pool exhausts both of
its attempts. -/
theorem pool_size_one_exhausts_witness :
    ([("Solo", (["X"] : List String))].map Prod.fst = ["Solo"]) ∧
    (∀ s ∈ [["Solo"], ["Solo"]], s.Perm (["Solo"] : List String)) ∧
    Logic.generate_secret_santa [("Solo", ["X"])] [["Solo"], ["Solo"]] =
      .error "Unable to generate valid Secret Santa pairings after multiple attempts." :=
  ⟨by decide, by decide,
    pool_size_one_exhausts.2 "Solo" [("Solo", ["X"])] [["Solo"], ["Solo"]] (by decide) (by decide)⟩

/-- C6 counterexample: the src/logic.py validator does not check self-pairs
(that filter lives in the generator), so on the spec Scenario E input — the
all-self candidate with empty history — it returns `true`, not `false`. -/
theorem logic_validator_accepts_self_pairs :
    Logic.is_valid_pairing [("A", "A"), ("B", "B")] [] = true := by
  decide

/-- C6 amended: the src/app/logic.py validator fails any candidate that
contains a self-pair, regardless of history and participants; the
src/logic.py and src/main.py validators have no self-pair check and the
self-pair filter is applied separately inside their generators. -/
theorem app_validator_rejects_self_pairs
    (assignments : List (Int × Int)) (past : List (Int × List (Option String)))
    (participants : List Participant) (g : Int)
    (h : (g, g) ∈ assignments) :
    AppLogic.is_valid_pairing assignments past participants = false := by
  rw [AppLogic.is_valid_pairing, List.all_eq_false]
  refine ⟨(g, g), h, ?_⟩
  simp [AppLogic.pairCheck]

/-- Witness for the amended C6 on a concrete candidate with one self-pair. -/
theorem app_validator_rejects_self_pairs_witness :
    ((2, 2) ∈ ([(1, 3), (2, 2)] : List (Int × Int))) ∧
    AppLogic.is_valid_pairing [(1, 3), (2, 2)] [] [⟨1, "A"⟩, ⟨2, "B"⟩] = false :=
  ⟨by decide, app_validator_rejects_self_pairs [(1, 3), (2, 2)] [] [⟨1, "A"⟩, ⟨2, "B"⟩] 2 (by decide)⟩

/-- C7: the src/logic.py validator rejects a pair exactly when the recipient
occurs among the last 2 entries of the giver list of past receivers, and a
giver absent from the history dict is treated as having empty history. -/
theorem validator_last_two_characterization
    (g r : String) (past : List (String × List String)) (hne : g ≠ r) :
    (Logic.is_valid_pairing [(g, r)] past = false ↔ r ∈ lastN 2 (dictGet past g [])) ∧
    ((∀ p ∈ past, p.1 ≠ g) → dictGet past g [] = []) := by
  constructor
  · constructor
    · intro hfalse
      rw [Logic.is_valid_pairing] at hfalse
      simpa using hfalse
    · intro hmem
      rw [Logic.is_valid_pairing]
      simpa using hmem
  · intro h
    have hfind : past.find? (fun p => p.1 == g) = none := by
      rw [List.find?_eq_none]
      intro x hx
      simp [h x hx]
    rw [dictGet, hfind]

/-- Witness for C7: recipient B occurs only in the oldest entry of the giver
history, outside the last two, so the pair validates. -/
theorem validator_last_two_characterization_witness :
    ("A" : String) ≠ "B" ∧
    ((Logic.is_valid_pairing [("A", "B")] [("A", ["B", "C", "D"])] = false ↔
      "B" ∈ lastN 2 (dictGet [("A", ["B", "C", "D"])] "A" [])) ∧
    ((∀ p ∈ [("A", ["B", "C", "D"])], p.1 ≠ "A") →
      dictGet [("A", ["B", "C", "D"])] "A" [] = [])) :=
  ⟨by decide, validator_last_two_characterization "A" "B" [("A", ["B", "C", "D"])] (by decide)⟩

/-- C8 counterexample: on the Scenario B input the src/main.py generator,
after its 100 attempts, returns the empty dict — it neither raises an
exhaustion error nor returns a pairing of the pool. -/
theorem main_generate_scenario_b_empty :
    Main.generate_secret_santa [("A", ["B"]), ("B", ["A"])]
      (List.replicate 100 ["A", "B"]) = [] := by
  decide

/-- C8 amended: on pool {A, B} with history {A:[B], B:[A]} no candidate is
accepted (the identity has self-pairs and the swap is history-excluded), so
after its 100 attempts the src/logic.py generator raises `ValueError` while
the src/main.py generator returns the empty dict. -/
theorem scenario_b_exhausts
    (samples : List (List String)) (hlen : samples.length = 100)
    (hperm : ∀ s ∈ samples, s.Perm ["A", "B"]) :
    Logic.generate_secret_santa [("A", ["B"]), ("B", ["A"])] samples =
      .error "Unable to generate valid Secret Santa pairings after multiple attempts." ∧
    Main.generate_secret_santa [("A", ["B"]), ("B", ["A"])] samples = [] := by
  constructor
  · unfold Logic.generate_secret_santa
    apply Logic.generateLoop_error
    intro s hsmem
    rcases perm_pair_eq (hperm s hsmem) with rfl | rfl
    · decide
    · decide
  · unfold Main.generate_secret_santa
    apply Main.generateLoop_all_rejected
    intro s hsmem
    rcases perm_pair_eq (hperm s hsmem) with rfl | rfl
    · exact Or.inl (by decide)
    · exact Or.inr (by decide)

/-- Witness for the amended C8 with 100 concrete swap samples. -/
theorem scenario_b_exhausts_witness :
    (List.replicate 100 (["B", "A"] : List String)).length = 100 ∧
    (∀ s ∈ List.replicate 100 (["B", "A"] : List String), s.Perm ["A", "B"]) ∧
    (Logic.generate_secret_santa [("A", ["B"]), ("B", ["A"])] (List.replicate 100 ["B", "A"]) =
      .error "Unable to generate valid Secret Santa pairings after multiple attempts." ∧
    Main.generate_secret_santa [("A", ["B"]), ("B", ["A"])] (List.replicate 100 ["B", "A"]) = []) :=
  ⟨by decide, by decide, scenario_b_exhausts (List.replicate 100 ["B", "A"]) (by decide) (by decide)⟩

/-- C9: all three validators are deterministic functions of their arguments:
two calls with equal arguments return equal booleans (the embedded functions
are pure, as are the Python originals up to logging). -/
theorem validators_deterministic
    (a1 a2 : List (String × String)) (p1 p2 : List (String × List String))
    (b1 b2 : List (Int × Int)) (q1 q2 : List (Int × List (Option String)))
    (ps1 ps2 : List Participant)
    (ha : a1 = a2) (hp : p1 = p2) (hb : b1 = b2) (hq : q1 = q2) (hps : ps1 = ps2) :
    Logic.is_valid_pairing a1 p1 = Logic.is_valid_pairing a2 p2 ∧
    Main.is_valid_pairing a1 p1 = Main.is_valid_pairing a2 p2 ∧
    AppLogic.is_valid_pairing b1 q1 ps1 = AppLogic.is_valid_pairing b2 q2 ps2 := by
  subst ha hp hb hq hps
  exact ⟨rfl, rfl, rfl⟩

/-- Witness for C9 on concrete repeated calls. -/
theorem validators_deterministic_witness :
    Logic.is_valid_pairing [("A", "B")] [("A", ["B"])] =
      Logic.is_valid_pairing [("A", "B")] [("A", ["B"])] ∧
    Main.is_valid_pairing [("A", "B")] [("A", ["B"])] =
      Main.is_valid_pairing [("A", "B")] [("A", ["B"])] ∧
    AppLogic.is_valid_pairing [(1, 2)] [(1, [some "B"])] [⟨1, "A"⟩, ⟨2, "B"⟩] =
      AppLogic.is_valid_pairing [(1, 2)] [(1, [some "B"])] [⟨1, "A"⟩, ⟨2, "B"⟩] :=
  validators_deterministic [("A", "B")] [("A", "B")] [("A", ["B"])] [("A", ["B"])]
    [(1, 2)] [(1, 2)] [(1, [some "B"])] [(1, [some "B"])]
    [⟨1, "A"⟩, ⟨2, "B"⟩] [⟨1, "A"⟩, ⟨2, "B"⟩] rfl rfl rfl rfl rfl

/-- C10: in the src/app/logic.py validator, a recipient id matching no entry
of the participants list resolves to the name `None`; when the giver list of
past receivers contains no `None` entry, such a pair can fail only the
self-pair check, and the per-pair outcome equals `giver != recipient` — no
exception path exists (the embedded check is a total function). -/
theorem app_validator_unknown_recipient
    (past : List (Int × List (Option String))) (participants : List Participant)
    (g r : Int)
    (hno : ∀ p ∈ participants, p.id ≠ r)
    (hnone : (none : Option String) ∉ dictGet past g []) :
    (participants.find? (fun p => p.id == r)) = none ∧
    AppLogic.pairCheck past participants (g, r) = (g != r) ∧
    AppLogic.is_valid_pairing [(g, r)] past participants = (g != r) := by
  have hfind : participants.find? (fun p => p.id == r) = none := by
    rw [List.find?_eq_none]
    intro x hx
    simp [hno x hx]
  have hcontains : (dictGet past g []).contains (none : Option String) = false := by
    rw [← Bool.not_eq_true]
    intro hc
    exact hnone (List.elem_iff.mp hc)
  have hpc : AppLogic.pairCheck past participants (g, r) = (g != r) := by
    by_cases hgr : g = r
    · subst hgr
      simp [AppLogic.pairCheck]
    · rw [AppLogic.pairCheck, if_neg (by simp [hgr]), hfind]
      simp only [Option.map_none']
      rw [hcontains]
      exact (bne_iff_ne.mpr hgr).symm
  refine ⟨hfind, hpc, ?_⟩
  rw [AppLogic.is_valid_pairing]
  simp [hpc]

/-- Witness for C10: recipient id 7 matches no participant, giver history has
no `None`, so the pair outcome is exactly the self-pair test. -/
theorem app_validator_unknown_recipient_witness :
    (∀ p ∈ [(⟨1, "A"⟩ : Participant), ⟨2, "B"⟩], p.id ≠ 7) ∧
    ((none : Option String) ∉ dictGet [((1 : Int), [some "B"])] 1 []) ∧
    (([(⟨1, "A"⟩ : Participant), ⟨2, "B"⟩].find? (fun p => p.id == 7)) = none ∧
    AppLogic.pairCheck [(1, [some "B"])] [⟨1, "A"⟩, ⟨2, "B"⟩] (1, 7) = ((1 : Int) != 7) ∧
    AppLogic.is_valid_pairing [(1, 7)] [(1, [some "B"])] [⟨1, "A"⟩, ⟨2, "B"⟩] = ((1 : Int) != 7)) :=
  ⟨by decide, by decide,
    app_validator_unknown_recipient [(1, [some "B"])] [⟨1, "A"⟩, ⟨2, "B"⟩] 1 7
      (by decide) (by decide)⟩

end SecretSanta
